import Mathlib

/-!
Verification development for the BPS enrollment dashboard seed scripts
(`scripts/seed_attendance.py`, `scripts/seed_enrollment.py`,
`scripts/seed_mcas.py`, `scripts/seed_schools.py`).

The scripts are shallowly embedded: raw CSV cells become `RawValue`
(a pandas cell is either the native missing value NaN, a string, or an
integer that pandas inferred), the Python string helpers `str`, `strip`,
`replace`, `int(...)`, `float(...)` become executable Lean functions, and
each script's validation / loading functions become Lean definitions in a
namespace named after the script.  Python `float` results are modelled as
exact rationals (`Rat`): every claim under study concerns which inputs
parse versus return null and the decimal value parsed, never IEEE
rounding.  Exotic numeric literal forms Python would also accept
(underscore digit grouping, exponents, `inf`/`nan` literals) are not
modelled; no script input form under study uses them.
-/

/-- A raw cell as handed to the seed scripts by `pandas`:
`missing` is the native missing value (NaN, also used for an absent
column), `str` a textual cell, `int` a numeric cell pandas inferred as an
integer. -/
inductive RawValue where
  | missing
  | str (s : String)
  | int (n : Int)
deriving Repr, DecidableEq

/-- Models `pd.isna(value)`. -/
def pdIsna : RawValue → Bool
  | .missing => true
  | _ => false

/-- Models Python `str(value)` on a raw cell: `str(float("nan"))` is
`"nan"`, strings are unchanged, integers print in decimal. -/
def pyStr : RawValue → String
  | .missing => "nan"
  | .str s => s
  | .int n => toString n

/-- Models Python `s.strip()`: drop whitespace from both ends. -/
def pyStrip (s : String) : String :=
  String.mk (((s.data.dropWhile Char.isWhitespace).reverse.dropWhile
    Char.isWhitespace).reverse)

/-- One rewrite step list for Python `s.replace(pat, rep)` (leftmost,
non-overlapping), driven by a fuel argument bounded by the list length. -/
def pyReplaceAux (pat rep : List Char) : Nat → List Char → List Char
  | 0, l => l
  | _, [] => []
  | fuel + 1, c :: rest =>
    if pat ≠ [] ∧ pat.isPrefixOf (c :: rest) then
      rep ++ pyReplaceAux pat rep fuel ((c :: rest).drop pat.length)
    else
      c :: pyReplaceAux pat rep fuel rest

/-- Models Python `s.replace(pat, rep)` for a non-empty pattern. -/
def pyReplace (s pat rep : String) : String :=
  String.mk (pyReplaceAux pat.data rep.data s.data.length s.data)

/-- Value of a digit string, most significant first. -/
def digitsVal (l : List Char) : Nat :=
  l.foldl (fun a c => 10 * a + (c.toNat - '0'.toNat)) 0

/-- Parse a non-empty all-digit character list. -/
def parseDigits (l : List Char) : Option Nat :=
  if l ≠ [] ∧ l.all Char.isDigit then some (digitsVal l) else none

/-- Signed integer body for `pyInt`, after stripping. -/
def pyIntCore (l : List Char) : Option Int :=
  match l with
  | '+' :: rest => (parseDigits rest).map (fun n => (n : Int))
  | '-' :: rest => (parseDigits rest).map (fun n => -(n : Int))
  | _ => (parseDigits l).map (fun n => (n : Int))

/-- Models Python `int(s)` on a string: surrounding whitespace and an
optional sign are accepted, anything else must be digits. -/
def pyInt (s : String) : Option Int :=
  pyIntCore (pyStrip s).data

/-- Unsigned decimal body for `pyFloat`: digits, optionally a point and
more digits, with at least one digit overall.  The parse is returned as
`(mantissa, number of fraction digits)` so that the syntactic stage stays
inside `Nat` (the denoted value is `mantissa / 10 ^ fracDigits`). -/
def pyFloatCore (l : List Char) : Option (Nat × Nat) :=
  let ip := l.takeWhile Char.isDigit
  let rest := l.dropWhile Char.isDigit
  match rest with
  | [] => if ip = [] then none else some (digitsVal ip, 0)
  | '.' :: fp =>
    if (ip ≠ [] ∨ fp ≠ []) ∧ fp.all Char.isDigit then
      some (digitsVal ip * 10 ^ fp.length + digitsVal fp, fp.length)
    else none
  | _ => none

/-- Syntactic part of Python `float(s)`: strip, read an optional sign and
a decimal literal, producing a signed scaled mantissa. -/
def pyFloatParse (s : String) : Option (Int × Nat) :=
  match (pyStrip s).data with
  | '+' :: rest => (pyFloatCore rest).map (fun p => ((p.1 : Int), p.2))
  | '-' :: rest => (pyFloatCore rest).map (fun p => (-(p.1 : Int), p.2))
  | l => (pyFloatCore l).map (fun p => ((p.1 : Int), p.2))

/-- Value of a scaled mantissa as an exact rational. -/
def ratOfScaled (p : Int × Nat) : Rat :=
  (p.1 : Rat) / (10 : Rat) ^ p.2

/-- Models Python `float(s)` on a decimal string (value kept exact as a
rational; IEEE rounding abstracted away). -/
def pyFloat (s : String) : Option Rat :=
  (pyFloatParse s).map ratOfScaled

/-- Models `int(value) if pd.notna(value) else None` with
`ValueError`/`TypeError` mapped to `None`, as the attendance and MCAS
validators parse the `SY` column. -/
def pyIntOf : RawValue → Option Int
  | .missing => none
  | .str s => pyInt s
  | .int n => some n

/-- Validation reason produced by the attendance/MCAS/enrollment
validators for the `SY` column: missing (or unparseable, which the
scripts fold into the same `None`) versus out of the 2000-2100 range. -/
def schoolYearErrors (school_year : Option Int) : List String :=
  match school_year with
  | none => ["Missing SY (school_year)"]
  | some y =>
    if y < 2000 ∨ y > 2100 then
      ["Invalid school_year " ++ toString y ++ " (must be 2000-2100)"]
    else []

/-- Validation reason for a required identifier field: the scripts treat
an empty string and the textual literal "nan" as missing. -/
def missingError (value msg : String) : List String :=
  if value = "" ∨ value = "nan" then [msg] else []

namespace SeedAttendance

/-- Function `parse_decimal` from `scripts/seed_attendance.py`: null on NaN, the
empty string and the sentinel "N"; otherwise drop percent signs and
commas and parse as a float. -/
def parse_decimal (value : RawValue) : Option Rat :=
  if pdIsna value ∨ value = RawValue.str "" ∨ value = RawValue.str "N" then none
  else pyFloat (pyReplace (pyReplace (pyStr value) "%" "") "," "")

/-- The CSV columns `validate_attendance_record` reads from a row. -/
structure AttendanceRow where
  SY : RawValue
  ATTEND_PERIOD : RawValue
  ORG_CODE : RawValue
  STU_GRP : RawValue
  ATTEND_RATE : RawValue
  CNT_AVG_ABS : RawValue
  PCT_ABS_10_DAYS : RawValue
  PCT_CHRON_ABS_10 : RawValue
  PCT_CHRON_ABS_20 : RawValue
  PCT_UNEXC_10_DAYS : RawValue
deriving Repr, DecidableEq

/-- Class `AttendanceRecord` as populated by `validate_attendance_record`. -/
structure AttendanceRecord where
  school_year : Option Int
  attendance_period : String
  school_id : String
  student_group : String
  attendance_rate : Option Rat
  avg_days_absent : Option Rat
  absent_10plus_days_pct : Option Rat
  chronic_absent_10_pct : Option Rat
  chronic_absent_20_pct : Option Rat
  unexcused_absent_10_pct : Option Rat
deriving Repr, DecidableEq

/-- The `errors` list accumulated by `validate_attendance_record`, in
source order: school year, then the three identifier fields. -/
def attendanceErrors (row : AttendanceRow) : List String :=
  schoolYearErrors (pyIntOf row.SY)
    ++ missingError (pyStrip (pyStr row.ATTEND_PERIOD)) "Missing ATTEND_PERIOD"
    ++ missingError (pyStrip (pyStr row.ORG_CODE)) "Missing ORG_CODE (school_id)"
    ++ missingError (pyStrip (pyStr row.STU_GRP)) "Missing STU_GRP (student_group)"

/-- Function `validate_attendance_record` from `scripts/seed_attendance.py`:
returns the populated record when no required-field error accumulated,
`None` otherwise. -/
def validate_attendance_record (row : AttendanceRow) : Option AttendanceRecord :=
  if attendanceErrors row = [] then
    some
      { school_year := pyIntOf row.SY
        attendance_period := pyStrip (pyStr row.ATTEND_PERIOD)
        school_id := pyStrip (pyStr row.ORG_CODE)
        student_group := pyStrip (pyStr row.STU_GRP)
        attendance_rate := parse_decimal row.ATTEND_RATE
        avg_days_absent := parse_decimal row.CNT_AVG_ABS
        absent_10plus_days_pct := parse_decimal row.PCT_ABS_10_DAYS
        chronic_absent_10_pct := parse_decimal row.PCT_CHRON_ABS_10
        chronic_absent_20_pct := parse_decimal row.PCT_CHRON_ABS_20
        unexcused_absent_10_pct := parse_decimal row.PCT_UNEXC_10_DAYS }
  else none

end SeedAttendance

namespace SeedEnrollment

/-- Function `parse_int` from `scripts/seed_enrollment.py`: null on NaN, the empty
string and "N"; otherwise drop commas and parse as an integer. -/
def parse_int (value : RawValue) : Option Int :=
  if pdIsna value ∨ value = RawValue.str "" ∨ value = RawValue.str "N" then none
  else pyInt (pyReplace (pyStr value) "," "")

/-- Function `parse_pct` from `scripts/seed_enrollment.py`: null on NaN, the empty
string and "N"; otherwise drop percent signs (only) and parse as a
float. -/
def parse_pct (value : RawValue) : Option Rat :=
  if pdIsna value ∨ value = RawValue.str "" ∨ value = RawValue.str "N" then none
  else pyFloat (pyReplace (pyStr value) "%" "")

/-- Class `EnrollmentRecord` as populated by `validate_enrollment_record`. -/
structure EnrollmentRecord where
  school_year : Option Int
  school_id : String
  total_enrollment : Option Int
  pk_count : Option Int
  k_count : Option Int
  grade_1_count : Option Int
  grade_2_count : Option Int
  grade_3_count : Option Int
  grade_4_count : Option Int
  grade_5_count : Option Int
  grade_6_count : Option Int
  grade_7_count : Option Int
  grade_8_count : Option Int
  grade_9_count : Option Int
  grade_10_count : Option Int
  grade_11_count : Option Int
  grade_12_count : Option Int
  sp_count : Option Int
  american_indian_pct : Option Rat
  asian_pct : Option Rat
  black_african_american_pct : Option Rat
  hispanic_latino_pct : Option Rat
  multi_race_non_hisp_pct : Option Rat
  native_hawaiian_pacific_pct : Option Rat
  white_pct : Option Rat
  female_pct : Option Rat
  male_pct : Option Rat
  non_binary_pct : Option Rat
  english_learner_count : Option Int
  english_learner_pct : Option Rat
  former_english_learner_count : Option Int
  former_english_learner_pct : Option Rat
  high_needs_count : Option Int
  high_needs_pct : Option Rat
  low_income_count : Option Int
  low_income_pct : Option Rat
  economically_disadvantaged_count : Option Int
  economically_disadvantaged_pct : Option Rat
  students_with_disabilities_count : Option Int
  students_with_disabilities_pct : Option Rat
deriving Repr, DecidableEq

end SeedEnrollment

namespace SeedMcas

/-- Function `parse_int` from `scripts/seed_mcas.py` (same body as the enrollment
script's `parse_int`). -/
def parse_int (value : RawValue) : Option Int :=
  if pdIsna value ∨ value = RawValue.str "" ∨ value = RawValue.str "N" then none
  else pyInt (pyReplace (pyStr value) "," "")

/-- Function `parse_decimal` from `scripts/seed_mcas.py` (same body as the
attendance script's `parse_decimal`). -/
def parse_decimal (value : RawValue) : Option Rat :=
  if pdIsna value ∨ value = RawValue.str "" ∨ value = RawValue.str "N" then none
  else pyFloat (pyReplace (pyReplace (pyStr value) "%" "") "," "")

/-- The CSV columns `validate_mcas_record` reads from a row. -/
structure McasRow where
  SY : RawValue
  ORG_CODE : RawValue
  TEST_GRADE : RawValue
  SUBJECT_CODE : RawValue
  STU_GRP : RawValue
  M_PLUS_E_CNT : RawValue
  M_PLUS_E_PCT : RawValue
  E_CNT : RawValue
  E_PCT : RawValue
  M_CNT : RawValue
  M_PCT : RawValue
  PM_CNT : RawValue
  PM_PCT : RawValue
  NM_CNT : RawValue
  NM_PCT : RawValue
  STU_CNT : RawValue
  STU_PART_PCT : RawValue
  AVG_SCALED_SCORE : RawValue
  AVG_SGP : RawValue
  AVG_SGP_INCL : RawValue
  ACH_PERCENTILE : RawValue
deriving Repr, DecidableEq

/-- Class `McasRecord` as populated by `validate_mcas_record`. -/
structure McasRecord where
  school_year : Option Int
  school_id : String
  test_grade : String
  subject_code : String
  student_group : String
  meeting_exceeding_count : Option Int
  meeting_exceeding_pct : Option Rat
  exceeding_count : Option Int
  exceeding_pct : Option Rat
  meeting_count : Option Int
  meeting_pct : Option Rat
  partially_meeting_count : Option Int
  partially_meeting_pct : Option Rat
  not_meeting_count : Option Int
  not_meeting_pct : Option Rat
  student_count : Option Int
  student_participation_pct : Option Rat
  avg_scaled_score : Option Rat
  avg_student_growth_percentile : Option Rat
  avg_sgp_included : Option Rat
  achievement_percentile : Option Int
deriving Repr, DecidableEq

/-- The `errors` list accumulated by `validate_mcas_record`, in source
order: school year, then the four identifier fields. -/
def mcasErrors (row : McasRow) : List String :=
  schoolYearErrors (pyIntOf row.SY)
    ++ missingError (pyStrip (pyStr row.ORG_CODE)) "Missing ORG_CODE (school_id)"
    ++ missingError (pyStrip (pyStr row.TEST_GRADE)) "Missing TEST_GRADE"
    ++ missingError (pyStrip (pyStr row.SUBJECT_CODE)) "Missing SUBJECT_CODE"
    ++ missingError (pyStrip (pyStr row.STU_GRP)) "Missing STU_GRP (student_group)"

/-- Function `validate_mcas_record` from `scripts/seed_mcas.py`. -/
def validate_mcas_record (row : McasRow) : Option McasRecord :=
  if mcasErrors row = [] then
    some
      { school_year := pyIntOf row.SY
        school_id := pyStrip (pyStr row.ORG_CODE)
        test_grade := pyStrip (pyStr row.TEST_GRADE)
        subject_code := pyStrip (pyStr row.SUBJECT_CODE)
        student_group := pyStrip (pyStr row.STU_GRP)
        meeting_exceeding_count := parse_int row.M_PLUS_E_CNT
        meeting_exceeding_pct := parse_decimal row.M_PLUS_E_PCT
        exceeding_count := parse_int row.E_CNT
        exceeding_pct := parse_decimal row.E_PCT
        meeting_count := parse_int row.M_CNT
        meeting_pct := parse_decimal row.M_PCT
        partially_meeting_count := parse_int row.PM_CNT
        partially_meeting_pct := parse_decimal row.PM_PCT
        not_meeting_count := parse_int row.NM_CNT
        not_meeting_pct := parse_decimal row.NM_PCT
        student_count := parse_int row.STU_CNT
        student_participation_pct := parse_decimal row.STU_PART_PCT
        avg_scaled_score := parse_decimal row.AVG_SCALED_SCORE
        avg_student_growth_percentile := parse_decimal row.AVG_SGP
        avg_sgp_included := parse_decimal row.AVG_SGP_INCL
        achievement_percentile := parse_int row.ACH_PERCENTILE }
  else none

end SeedMcas

/-- Models Python's `pat in s` substring test on character lists. -/
def containsSub (pat : List Char) : List Char → Bool
  | [] => pat.isEmpty
  | c :: rest => pat.isPrefixOf (c :: rest) || containsSub pat rest

/-- Models Python `s.lower()` (ASCII case folding; the organization-type
values under study are ASCII). -/
def pyLower (s : String) : String :=
  String.mk (s.data.map Char.toLower)

namespace SeedSchools

/-- Constant `VALID_ORG_TYPES` from `scripts/seed_schools.py` (a Python set; its
membership test is what matters, modelled as a list). -/
def VALID_ORG_TYPES : List String := ["School", "District", "State"]

/-- Function `normalize_org_type` from `scripts/seed_schools.py`: lowercase and
strip, map exactly "state" to `State`, any value containing "district" to
`District`, then any value containing "school" to `School`, and return
the original value otherwise. -/
def normalize_org_type (org_type : String) : String :=
  let org_type_lower := pyStrip (pyLower org_type)
  if org_type_lower = "state" then "State"
  else if containsSub "district".data org_type_lower.data then "District"
  else if containsSub "school".data org_type_lower.data then "School"
  else org_type

/-- The five directory columns `validate_school_record` reads. -/
structure SchoolRow where
  ORG_CODE : RawValue
  ORG_NAME : RawValue
  DIST_CODE : RawValue
  DIST_NAME : RawValue
  ORG_TYPE : RawValue
deriving Repr, DecidableEq

/-- Class `SchoolRecord` from `scripts/seed_schools.py`. -/
structure SchoolRecord where
  school_id : String
  school_name : String
  district_code : String
  district_name : String
  org_type : String
  source_file : String
deriving Repr, DecidableEq

/-- The normalized `org_type` computed by `validate_school_record`:
normalization applies only when the raw (stripped) value is non-empty and
not the literal "nan"; otherwise the empty string stands for missing. -/
def schoolOrgType (row : SchoolRow) : String :=
  let org_type_raw := pyStrip (pyStr row.ORG_TYPE)
  if org_type_raw ≠ "" ∧ org_type_raw ≠ "nan" then normalize_org_type org_type_raw
  else ""

/-- The invalid-membership message of `validate_school_record`.  Python
formats the `VALID_ORG_TYPES` set here, whose element order can vary
between runs; it is fixed in declaration order in this model (no claim
depends on this exact text). -/
def invalidOrgTypeMsg (org_type : String) : String :=
  "Invalid ORG_TYPE \x27" ++ org_type ++
    "\x27. Must be one of: \x7b\x27School\x27, \x27District\x27, \x27State\x27\x7d"

/-- The membership check on the normalized organization type. -/
def orgTypeErrors (org_type : String) : List String :=
  if org_type = "" ∨ org_type = "nan" then ["Missing ORG_TYPE (org_type)"]
  else if org_type ∉ VALID_ORG_TYPES then [invalidOrgTypeMsg org_type]
  else []

/-- The `errors` list accumulated by `validate_school_record`, in source
order. -/
def schoolErrors (row : SchoolRow) : List String :=
  missingError (pyStrip (pyStr row.ORG_CODE)) "Missing ORG_CODE (school_id)"
    ++ missingError (pyStrip (pyStr row.ORG_NAME)) "Missing ORG_NAME (school_name)"
    ++ missingError (pyStrip (pyStr row.DIST_CODE)) "Missing DIST_CODE (district_code)"
    ++ missingError (pyStrip (pyStr row.DIST_NAME)) "Missing DIST_NAME (district_name)"
    ++ orgTypeErrors (schoolOrgType row)

/-- Function `validate_school_record` from `scripts/seed_schools.py`. -/
def validate_school_record (row : SchoolRow) (source_file : String) :
    Option SchoolRecord :=
  if schoolErrors row = [] then
    some
      { school_id := pyStrip (pyStr row.ORG_CODE)
        school_name := pyStrip (pyStr row.ORG_NAME)
        district_code := pyStrip (pyStr row.DIST_CODE)
        district_name := pyStrip (pyStr row.DIST_NAME)
        org_type := schoolOrgType row
        source_file := source_file }
  else none

end SeedSchools

/-- Lookup in a Python-dict model (insertion-ordered association list). -/
def dictGet {α : Type} : List (String × α) → String → Option α
  | [], _ => none
  | (k, v) :: rest, key => if k = key then some v else dictGet rest key

/-- Membership test, as `key in dict`. -/
def dictContains {α : Type} (m : List (String × α)) (k : String) : Bool :=
  (dictGet m k).isSome

/-- Assignment `dict[key] = value`: replace in place, or append. -/
def dictSet {α : Type} : List (String × α) → String → α → List (String × α)
  | [], k, v => [(k, v)]
  | (k', v') :: rest, k, v =>
    if k' = k then (k, v) :: rest else (k', v') :: dictSet rest k v

namespace SeedSchools

/-- One iteration of the deduplication loop in `collect_all_schools`:
count a duplicate when the key is already present, then overwrite. -/
def addSchool (acc : List (String × SchoolRecord) × Nat) (school : SchoolRecord) :
    List (String × SchoolRecord) × Nat :=
  (dictSet acc.1 school.school_id school,
   if dictContains acc.1 school.school_id then acc.2 + 1 else acc.2)

/-- Function `collect_all_schools` from `scripts/seed_schools.py`, over the
per-source extraction results (one validated-record list per readable
configured source, in the pipeline's fixed source order; missing sources
were already skipped).  Returns the merged dict and the duplicate
counter. -/
def collect_all_schools (sources : List (List SchoolRecord)) :
    List (String × SchoolRecord) × Nat :=
  sources.foldl (fun acc schools => schools.foldl addSchool acc) ([], 0)

end SeedSchools

/-- One call issued against the Supabase sink:
`supabase.table(tbl).upsert(rows, on_conflict=...)` carries
`on_conflict = some key`, a bare `.upsert(rows)` carries `none`. -/
structure UpsertCall (α : Type) where
  table : String
  rows : List α
  on_conflict : Option String
deriving Repr, DecidableEq

/-- Outcome of one `insert_*_records` run: the sequence of sink calls
issued, the two counters, the returned flag, and the records previewed in
dry-run mode. -/
structure LoadResult (α : Type) where
  calls : List (UpsertCall α)
  total_inserted : Nat
  total_errors : Nat
  success : Bool
  preview : List α
deriving Repr, DecidableEq

/-- The sink is modelled as an oracle deciding which upsert calls
succeed. -/
def SinkOracle (α : Type) : Type := UpsertCall α → Bool

/-- The batches `range(0, len(records), batch_size)` slices out, for a
positive batch size (Python raises on a zero step); fuel-driven. -/
def chunksAux {α : Type} (bs : Nat) : Nat → List α → List (List α)
  | 0, _ => []
  | _, [] => []
  | fuel + 1, l => l.take bs :: chunksAux bs fuel (l.drop bs)

/-- Partition a record list into consecutive batches of `bs` records. -/
def chunks {α : Type} (bs : Nat) (l : List α) : List (List α) :=
  chunksAux bs l.length l

/-- The per-record fallback loop: one bare upsert per record, tallying
individual successes and failures onto the running counters. -/
def retryLoop {α : Type} (sink : SinkOracle α) (calls : List (UpsertCall α))
    (acc : Nat × Nat) : Nat × Nat :=
  calls.foldl (fun ie c => if sink c then (ie.1 + 1, ie.2) else (ie.1, ie.2 + 1)) acc

/-- One iteration of the batch loop in `insert_*_records`: try the batch
upsert with the domain's conflict key; on success count the whole batch
as inserted; on failure count the whole batch as errors, then fall back
to one bare upsert per record and tally each individually.  Returns the
calls issued and the (inserted, errors) contribution. -/
def processBatch {α : Type} (table key : String) (sink : SinkOracle α)
    (batch : List α) : List (UpsertCall α) × Nat × Nat :=
  let batchCall : UpsertCall α := { table := table, rows := batch, on_conflict := some key }
  if sink batchCall then
    ([batchCall], batch.length, 0)
  else
    let fallback := batch.map
      (fun record => ({ table := table, rows := [record], on_conflict := none } : UpsertCall α))
    let tallies := retryLoop sink fallback (0, 0)
    (batchCall :: fallback, tallies.1, batch.length + tallies.2)

/-- Accumulate one batch's contribution onto the running state. -/
def loadStep {α : Type} (table key : String) (sink : SinkOracle α)
    (acc : List (UpsertCall α) × Nat × Nat) (batch : List α) :
    List (UpsertCall α) × Nat × Nat :=
  (acc.1 ++ (processBatch table key sink batch).1,
   acc.2.1 + (processBatch table key sink batch).2.1,
   acc.2.2 + (processBatch table key sink batch).2.2)

/-- The batch loop of `insert_*_records` over all batches. -/
def insertLoop {α : Type} (table key : String) (sink : SinkOracle α)
    (batches : List (List α)) : List (UpsertCall α) × Nat × Nat :=
  batches.foldl (loadStep table key sink) ([], 0, 0)

/-- Common shape of `insert_attendance_records`, `insert_enrollment_records`,
`insert_mcas_records` and `insert_schools` (live and dry-run behavior);
each script instantiates the table name and conflict key.  Dry-run
previews `records[:5]` and reports success without any sink call;
live mode batches and returns `total_errors == 0`. -/
def insertRecords {α : Type} (table key : String) (sink : SinkOracle α)
    (records : List α) (batch_size : Nat) (dry_run : Bool) : LoadResult α :=
  if dry_run then
    { calls := [], total_inserted := 0, total_errors := 0, success := true,
      preview := records.take 5 }
  else
    let r := insertLoop table key sink (chunks batch_size records)
    { calls := r.1, total_inserted := r.2.1, total_errors := r.2.2,
      success := r.2.2 == 0, preview := [] }

namespace SeedAttendance

/-- Function `insert_attendance_records` from `scripts/seed_attendance.py`. -/
def insert_attendance_records (sink : SinkOracle AttendanceRecord)
    (records : List AttendanceRecord) (batch_size : Nat) (dry_run : Bool) :
    LoadResult AttendanceRecord :=
  insertRecords "attendance" "school_id,school_year,attendance_period,student_group"
    sink records batch_size dry_run

end SeedAttendance

namespace SeedEnrollment

/-- Function `insert_enrollment_records` from `scripts/seed_enrollment.py`. -/
def insert_enrollment_records (sink : SinkOracle EnrollmentRecord)
    (records : List EnrollmentRecord) (batch_size : Nat) (dry_run : Bool) :
    LoadResult EnrollmentRecord :=
  insertRecords "enrollment" "school_id,school_year" sink records batch_size dry_run

end SeedEnrollment

namespace SeedMcas

/-- Function `insert_mcas_records` from `scripts/seed_mcas.py`. -/
def insert_mcas_records (sink : SinkOracle McasRecord)
    (records : List McasRecord) (batch_size : Nat) (dry_run : Bool) :
    LoadResult McasRecord :=
  insertRecords "mcas_results" "school_id,school_year,test_grade,subject_code,student_group"
    sink records batch_size dry_run

end SeedMcas

namespace SeedSchools

/-- Function `insert_schools` from `scripts/seed_schools.py`: loads the values of
the deduplicated dict, in insertion order. -/
def insert_schools (sink : SinkOracle SchoolRecord)
    (schools : List (String × SchoolRecord)) (batch_size : Nat) (dry_run : Bool) :
    LoadResult SchoolRecord :=
  insertRecords "schools" "school_id" sink (schools.map Prod.snd) batch_size dry_run

end SeedSchools

/-- Outcome of one `main()` run: the process exit code, whether
`get_supabase_client` was invoked, whether a load was attempted, and the
sink calls issued. -/
structure MainResult (α : Type) where
  exit_code : Nat
  client_requested : Bool
  load_attempted : Bool
  sink_calls : List (UpsertCall α)
deriving Repr, DecidableEq

namespace SeedAttendance

/-- Function `main` from `scripts/seed_attendance.py`, over the extraction result
(`records`), whether the Supabase client can be configured (`client_ok`),
the sink oracle, and the `--dry-run` flag.  Mirrors the three steps:
bail out with exit 1 on zero extracted records before touching the sink,
bail out with exit 1 when the client cannot be created, otherwise return
0 exactly when `insert_attendance_records` reports success. -/
def main_model (records : List AttendanceRecord) (client_ok : Bool)
    (sink : SinkOracle AttendanceRecord) (dry_run : Bool) :
    MainResult AttendanceRecord :=
  if records.isEmpty then
    { exit_code := 1, client_requested := false, load_attempted := false, sink_calls := [] }
  else if !client_ok then
    { exit_code := 1, client_requested := true, load_attempted := false, sink_calls := [] }
  else
    let result := insert_attendance_records sink records 100 dry_run
    { exit_code := if result.success then 0 else 1,
      client_requested := true, load_attempted := true, sink_calls := result.calls }

end SeedAttendance

namespace SeedEnrollment

/-- Function `main` from `scripts/seed_enrollment.py` (same driver shape as the
attendance script). -/
def main_model (records : List EnrollmentRecord) (client_ok : Bool)
    (sink : SinkOracle EnrollmentRecord) (dry_run : Bool) :
    MainResult EnrollmentRecord :=
  if records.isEmpty then
    { exit_code := 1, client_requested := false, load_attempted := false, sink_calls := [] }
  else if !client_ok then
    { exit_code := 1, client_requested := true, load_attempted := false, sink_calls := [] }
  else
    let result := insert_enrollment_records sink records 100 dry_run
    { exit_code := if result.success then 0 else 1,
      client_requested := true, load_attempted := true, sink_calls := result.calls }

end SeedEnrollment

/-- An attendance row whose identifier fields are all valid, with the
`SY` cell left as a parameter (fixture for the year-validation claims). -/
def attRowWithYear (v : RawValue) : SeedAttendance.AttendanceRow :=
  { SY := v, ATTEND_PERIOD := RawValue.str "1", ORG_CODE := RawValue.str "00350339",
    STU_GRP := RawValue.str "All Students", ATTEND_RATE := RawValue.missing,
    CNT_AVG_ABS := RawValue.missing, PCT_ABS_10_DAYS := RawValue.missing,
    PCT_CHRON_ABS_10 := RawValue.missing, PCT_CHRON_ABS_20 := RawValue.missing,
    PCT_UNEXC_10_DAYS := RawValue.missing }

/-- An MCAS row whose identifier fields are all valid, with the `SY` cell
left as a parameter. -/
def mcasRowWithYear (v : RawValue) : SeedMcas.McasRow :=
  { SY := v, ORG_CODE := RawValue.str "00350339", TEST_GRADE := RawValue.str "03",
    SUBJECT_CODE := RawValue.str "ELA", STU_GRP := RawValue.str "All Students",
    M_PLUS_E_CNT := RawValue.missing, M_PLUS_E_PCT := RawValue.missing,
    E_CNT := RawValue.missing, E_PCT := RawValue.missing,
    M_CNT := RawValue.missing, M_PCT := RawValue.missing,
    PM_CNT := RawValue.missing, PM_PCT := RawValue.missing,
    NM_CNT := RawValue.missing, NM_PCT := RawValue.missing,
    STU_CNT := RawValue.missing, STU_PART_PCT := RawValue.missing,
    AVG_SCALED_SCORE := RawValue.missing, AVG_SGP := RawValue.missing,
    AVG_SGP_INCL := RawValue.missing, ACH_PERCENTILE := RawValue.missing }

/-- The record the attendance validator produces on the fixture row with
year 2015 (fixture for the key-completeness claim). -/
def attRec2015 : SeedAttendance.AttendanceRecord :=
  { school_year := some 2015, attendance_period := "1", school_id := "00350339",
    student_group := "All Students", attendance_rate := none,
    avg_days_absent := none, absent_10plus_days_pct := none,
    chronic_absent_10_pct := none, chronic_absent_20_pct := none,
    unexcused_absent_10_pct := none }

/-- A concrete validated attendance record (fixture). -/
def attRecA : SeedAttendance.AttendanceRecord :=
  { school_year := some 2015, attendance_period := "1", school_id := "A",
    student_group := "All Students", attendance_rate := none,
    avg_days_absent := none, absent_10plus_days_pct := none,
    chronic_absent_10_pct := none, chronic_absent_20_pct := none,
    unexcused_absent_10_pct := none }

/-- A second concrete validated attendance record (fixture). -/
def attRecB : SeedAttendance.AttendanceRecord :=
  { school_year := some 2015, attendance_period := "1", school_id := "B",
    student_group := "All Students", attendance_rate := none,
    avg_days_absent := none, absent_10plus_days_pct := none,
    chronic_absent_10_pct := none, chronic_absent_20_pct := none,
    unexcused_absent_10_pct := none }

/-- A sink oracle that rejects every multi-record batch call and accepts
every single-record call: the scenario in which a batch upsert fails but
every per-record fallback succeeds. -/
def sinkSingletonOnly : SinkOracle SeedAttendance.AttendanceRecord :=
  fun c => c.rows.length == 1

/-- Two school records sharing a school id but with differing names
(fixture for the deduplication claim). -/
def schRec1 : SeedSchools.SchoolRecord :=
  { school_id := "1234", school_name := "Old Name", district_code := "0035",
    district_name := "Boston", org_type := "School", source_file := "first.csv" }

/-- The later source's record for the same school id. -/
def schRec2 : SeedSchools.SchoolRecord :=
  { school_id := "1234", school_name := "New Name", district_code := "0035",
    district_name := "Boston", org_type := "School", source_file := "second.csv" }

/-- A school-directory row whose organization type is unrecognized
(fixture for the membership-check claim). -/
def schoolRowUnknownOrg : SeedSchools.SchoolRow :=
  { ORG_CODE := RawValue.str "1234", ORG_NAME := RawValue.str "Some Collaborative",
    DIST_CODE := RawValue.str "0035", DIST_NAME := RawValue.str "Boston",
    ORG_TYPE := RawValue.str "Collaborative" }

/-- A concrete enrollment record (fixture for the driver claim). -/
def enrRec0 : SeedEnrollment.EnrollmentRecord :=
  { school_year := some 2015, school_id := "0035", total_enrollment := none,
    pk_count := none, k_count := none, grade_1_count := none,
    grade_2_count := none, grade_3_count := none, grade_4_count := none,
    grade_5_count := none, grade_6_count := none, grade_7_count := none,
    grade_8_count := none, grade_9_count := none, grade_10_count := none,
    grade_11_count := none, grade_12_count := none, sp_count := none,
    american_indian_pct := none, asian_pct := none,
    black_african_american_pct := none, hispanic_latino_pct := none,
    multi_race_non_hisp_pct := none, native_hawaiian_pacific_pct := none,
    white_pct := none, female_pct := none, male_pct := none,
    non_binary_pct := none, english_learner_count := none,
    english_learner_pct := none, former_english_learner_count := none,
    former_english_learner_pct := none, high_needs_count := none,
    high_needs_pct := none, low_income_count := none, low_income_pct := none,
    economically_disadvantaged_count := none,
    economically_disadvantaged_pct := none,
    students_with_disabilities_count := none,
    students_with_disabilities_pct := none }

/-- Key-completeness property of an identifier field: non-empty, not the
textual literal "nan", and invariant under stripping (i.e. trimmed). -/
def goodKey (s : String) : Prop :=
  s ≠ "" ∧ s ≠ "nan" ∧ pyStrip s = s

instance (s : String) : Decidable (goodKey s) := by
  unfold goodKey; infer_instance

/-- Eager left-biased choice on options (used to state last-write-wins
lookups). -/
def orO {α : Type} : Option α → Option α → Option α
  | some x, _ => some x
  | none, y => y

theorem dropWhile_head_false {p : Char → Bool} {l : List Char} {c : Char}
    (h : (l.dropWhile p).head? = some c) : p c = false := by
  induction l with
  | nil => simp [List.dropWhile] at h
  | cons a t ih =>
    by_cases hp : p a
    · rw [show (a :: t).dropWhile p = t.dropWhile p by simp [List.dropWhile, hp]] at h
      exact ih h
    · have hf : p a = false := by simpa using hp
      rw [show (a :: t).dropWhile p = a :: t by simp [List.dropWhile, hf]] at h
      simp at h
      subst h
      exact hf

theorem dropWhile_of_head_false {p : Char → Bool} {l : List Char}
    (h : ∀ c, l.head? = some c → p c = false) : l.dropWhile p = l := by
  cases l with
  | nil => rfl
  | cons a t => simp [List.dropWhile, h a rfl]

theorem head_false_of_pre {p : Char → Bool} {l1 l2 : List Char} (h : l1 <+: l2)
    (h2 : ∀ c, l2.head? = some c → p c = false) :
    ∀ c, l1.head? = some c → p c = false := by
  intro c hc
  cases l1 with
  | nil => simp at hc
  | cons a t =>
    have hac : a = c := by simpa using hc
    obtain ⟨r, hr⟩ := h
    subst hac
    exact h2 a (by rw [← hr]; rfl)

theorem dropWhile_drops_front (p : Char → Bool) (l : List Char) :
    ∃ t, t ++ l.dropWhile p = l := by
  induction l with
  | nil => exact ⟨[], rfl⟩
  | cons a t ih =>
    by_cases hp : p a
    · obtain ⟨u, hu⟩ := ih
      refine ⟨a :: u, ?_⟩
      rw [show (a :: t).dropWhile p = t.dropWhile p by simp [List.dropWhile, hp]]
      simpa using hu
    · have hf : p a = false := by simpa using hp
      exact ⟨[], by simp [List.dropWhile, hf]⟩

theorem rev_drop_pre (p : Char → Bool) (l : List Char) :
    (l.reverse.dropWhile p).reverse <+: l := by
  obtain ⟨t, ht⟩ := dropWhile_drops_front p l.reverse
  refine ⟨t.reverse, ?_⟩
  rw [← List.reverse_append, ht, List.reverse_reverse]

theorem pyStrip_idem (s : String) : pyStrip (pyStrip s) = pyStrip s := by
  unfold pyStrip
  congr 1
  have hA : ∀ c, ((s.data.dropWhile Char.isWhitespace).head? = some c) →
      Char.isWhitespace c = false := fun c hc => dropWhile_head_false hc
  have hpre := rev_drop_pre Char.isWhitespace (s.data.dropWhile Char.isWhitespace)
  have hL := dropWhile_of_head_false (head_false_of_pre hpre hA)
  have hC := dropWhile_of_head_false
    (fun c hc => dropWhile_head_false (p := Char.isWhitespace)
      (l := (s.data.dropWhile Char.isWhitespace).reverse) hc)
  rw [show (String.mk (((s.data.dropWhile Char.isWhitespace).reverse.dropWhile
    Char.isWhitespace).reverse)).data = ((s.data.dropWhile Char.isWhitespace).reverse.dropWhile
    Char.isWhitespace).reverse from rfl]
  rw [hL, List.reverse_reverse, hC]

theorem orO_assoc {α : Type} (a b c : Option α) :
    orO (orO a b) c = orO a (orO b c) := by
  cases a <;> simp [orO]

theorem orO_none_right {α : Type} (a : Option α) : orO a none = a := by
  cases a <;> simp [orO]

theorem getLast?_isSome_cons {α : Type} (b : α) (m : List α) :
    ∃ x, (b :: m).getLast? = some x := by
  induction m generalizing b with
  | nil => exact ⟨b, rfl⟩
  | cons c m ih => rw [List.getLast?_cons_cons]; exact ih c

theorem getLast?_cons_orO {α : Type} (a : α) (l : List α) :
    (a :: l).getLast? = orO l.getLast? (some a) := by
  cases l with
  | nil => rfl
  | cons b m =>
    obtain ⟨x, hx⟩ := getLast?_isSome_cons b m
    rw [List.getLast?_cons_cons, hx]
    rfl

theorem getLast?_append_orO {α : Type} (l1 l2 : List α) :
    (l1 ++ l2).getLast? = orO l2.getLast? l1.getLast? := by
  induction l1 with
  | nil => simp [orO_none_right]
  | cons a t ih =>
    rw [List.cons_append, getLast?_cons_orO, ih, getLast?_cons_orO, orO_assoc]

theorem dictGet_dictSet {α : Type} (m : List (String × α)) (k k' : String) (v : α) :
    dictGet (dictSet m k v) k' = if k = k' then some v else dictGet m k' := by
  induction m with
  | nil => simp [dictSet, dictGet]
  | cons p rest ih =>
    obtain ⟨a, b⟩ := p
    by_cases hak : a = k
    · subst hak
      by_cases hk' : a = k'
      · simp [dictSet, dictGet, hk']
      · simp [dictSet, dictGet, hk']
    · by_cases hak' : a = k'
      · subst hak'
        have hk : ¬ k = a := fun h => hak h.symm
        simp [dictSet, dictGet, hak, hk]
      · simp [dictSet, dictGet, hak, hak', ih]

theorem foldl_addSchool_get (l : List SeedSchools.SchoolRecord)
    (acc : List (String × SeedSchools.SchoolRecord) × Nat) (k : String) :
    dictGet ((l.foldl SeedSchools.addSchool acc).1) k =
      orO ((l.filter (fun r => r.school_id == k)).getLast?) (dictGet acc.1 k) := by
  induction l generalizing acc with
  | nil => simp [orO]
  | cons r t ih =>
    rw [List.foldl_cons, ih]
    rw [List.filter_cons]
    by_cases hr : r.school_id = k
    · simp only [hr, beq_self_eq_true, if_true]
      rw [getLast?_cons_orO, orO_assoc]
      have : dictGet (SeedSchools.addSchool acc r).1 k = some r := by
        simp [SeedSchools.addSchool, dictGet_dictSet, hr]
      rw [this]
      rfl
    · have hb : (r.school_id == k) = false := by simp [hr]
      simp only [hb, if_false]
      have : dictGet (SeedSchools.addSchool acc r).1 k = dictGet acc.1 k := by
        simp [SeedSchools.addSchool, dictGet_dictSet, hr]
      rw [this]
      simp

theorem foldl_flatten_addSchool (L : List (List SeedSchools.SchoolRecord))
    (acc : List (String × SeedSchools.SchoolRecord) × Nat) :
    L.foldl (fun a schools => schools.foldl SeedSchools.addSchool a) acc =
      L.flatten.foldl SeedSchools.addSchool acc := by
  induction L generalizing acc with
  | nil => rfl
  | cons l L ih =>
    rw [List.foldl_cons, ih, List.flatten_cons, List.foldl_append]

theorem collect_get (sources : List (List SeedSchools.SchoolRecord)) (k : String) :
    dictGet (SeedSchools.collect_all_schools sources).1 k =
      (sources.flatten.filter (fun r => r.school_id == k)).getLast? := by
  rw [SeedSchools.collect_all_schools, foldl_flatten_addSchool, foldl_addSchool_get]
  simp [dictGet, orO_none_right]

/-! Helper lemmas about the batch loader. -/

theorem foldl_loadStep_calls {α : Type} (table key : String) (sink : SinkOracle α)
    (batches : List (List α)) (acc : List (UpsertCall α) × Nat × Nat) :
    (batches.foldl (loadStep table key sink) acc).1 =
      acc.1 ++ (batches.map (fun b => (processBatch table key sink b).1)).flatten := by
  induction batches generalizing acc with
  | nil => simp
  | cons b bs ih =>
    rw [List.foldl_cons, ih, List.map_cons, List.flatten_cons]
    simp [loadStep, List.append_assoc]

theorem insertLoop_calls {α : Type} (table key : String) (sink : SinkOracle α)
    (batches : List (List α)) :
    (insertLoop table key sink batches).1 =
      (batches.map (fun b => (processBatch table key sink b).1)).flatten := by
  rw [insertLoop, foldl_loadStep_calls]
  rfl

theorem mem_processBatch_calls {α : Type} {table key : String} {sink : SinkOracle α}
    {b : List α} {c : UpsertCall α} (h : c ∈ (processBatch table key sink b).1) :
    c = { table := table, rows := b, on_conflict := some key } ∨
      ∃ r ∈ b, c = { table := table, rows := [r], on_conflict := none } := by
  unfold processBatch at h
  by_cases hs : sink { table := table, rows := b, on_conflict := some key }
  · rw [if_pos hs] at h
    simp at h
    exact Or.inl h
  · rw [if_neg hs] at h
    rcases List.mem_cons.mp h with h1 | h2
    · exact Or.inl h1
    · right
      obtain ⟨r, hr, hc⟩ := List.mem_map.mp h2
      exact ⟨r, hr, hc.symm⟩

theorem batchCall_mem_processBatch {α : Type} (table key : String) (sink : SinkOracle α)
    (b : List α) :
    ({ table := table, rows := b, on_conflict := some key } : UpsertCall α) ∈
      (processBatch table key sink b).1 := by
  unfold processBatch
  by_cases hs : sink { table := table, rows := b, on_conflict := some key }
  · rw [if_pos hs]; exact List.mem_singleton.mpr rfl
  · rw [if_neg hs]; exact List.mem_cons_self _ _

/-- Evaluation rule for `pyFloat` from a computed syntactic parse. -/
theorem pyFloat_eval {s : String} {m : Int} {e : Nat} (h : pyFloatParse s = some (m, e)) :
    pyFloat s = some ((m : Rat) / (10 : Rat) ^ e) := by
  rw [pyFloat, h]; rfl

/-- Claim C3 (counterexample): the claim asserts that in every domain the
decimal coercion strips thousands-separator commas, so that "1,234.5"
parses to 1234.5 rather than null; but the enrollment script's `parse_pct`
strips only the percent sign, and returns null on "1,234.5". -/
theorem C3_counterexample :
    SeedEnrollment.parse_pct (RawValue.str "1,234.5") = none := by decide

/-- Claim C3 (amended): `parse_decimal` in the attendance and MCAS scripts
strips a trailing percent sign and thousands-separator commas, while
`parse_pct` in the enrollment script strips only the percent sign (so
"1,234.5" parses to 1234.5 under `parse_decimal` but yields null under
`parse_pct`); all three return null for the empty string, the sentinel
"N" and the source's native missing value, and otherwise return the
parsed float: "93.2%" yields 93.2 and "11.9" yields 11.9 in all three. -/
theorem C3_decimal_coercion :
    (∀ v : RawValue, v = RawValue.missing ∨ v = RawValue.str "" ∨ v = RawValue.str "N" →
        SeedAttendance.parse_decimal v = none ∧ SeedMcas.parse_decimal v = none ∧
          SeedEnrollment.parse_pct v = none)
    ∧ SeedAttendance.parse_decimal (RawValue.str "93.2%") = some (93.2 : Rat)
    ∧ SeedMcas.parse_decimal (RawValue.str "93.2%") = some (93.2 : Rat)
    ∧ SeedEnrollment.parse_pct (RawValue.str "93.2%") = some (93.2 : Rat)
    ∧ SeedAttendance.parse_decimal (RawValue.str "11.9") = some (11.9 : Rat)
    ∧ SeedEnrollment.parse_pct (RawValue.str "11.9") = some (11.9 : Rat)
    ∧ SeedAttendance.parse_decimal (RawValue.str "1,234.5") = some (1234.5 : Rat)
    ∧ SeedMcas.parse_decimal (RawValue.str "1,234.5") = some (1234.5 : Rat)
    ∧ SeedEnrollment.parse_pct (RawValue.str "1,234.5") = none := by
  refine ⟨?_, ?_, ?_, ?_, ?_, ?_, ?_, ?_, by decide⟩
  · intro v h
    rcases h with h | h | h <;> subst h <;> exact ⟨by decide, by decide, by decide⟩
  · rw [SeedAttendance.parse_decimal, if_neg (by decide)]
    rw [show pyReplace (pyReplace (pyStr (RawValue.str "93.2%")) "%" "") "," "" = "93.2"
      from by decide]
    rw [pyFloat_eval (show pyFloatParse "93.2" = some (932, 1) from by decide)]
    norm_num
  · rw [SeedMcas.parse_decimal, if_neg (by decide)]
    rw [show pyReplace (pyReplace (pyStr (RawValue.str "93.2%")) "%" "") "," "" = "93.2"
      from by decide]
    rw [pyFloat_eval (show pyFloatParse "93.2" = some (932, 1) from by decide)]
    norm_num
  · rw [SeedEnrollment.parse_pct, if_neg (by decide)]
    rw [show pyReplace (pyStr (RawValue.str "93.2%")) "%" "" = "93.2" from by decide]
    rw [pyFloat_eval (show pyFloatParse "93.2" = some (932, 1) from by decide)]
    norm_num
  · rw [SeedAttendance.parse_decimal, if_neg (by decide)]
    rw [show pyReplace (pyReplace (pyStr (RawValue.str "11.9")) "%" "") "," "" = "11.9"
      from by decide]
    rw [pyFloat_eval (show pyFloatParse "11.9" = some (119, 1) from by decide)]
    norm_num
  · rw [SeedEnrollment.parse_pct, if_neg (by decide)]
    rw [show pyReplace (pyStr (RawValue.str "11.9")) "%" "" = "11.9" from by decide]
    rw [pyFloat_eval (show pyFloatParse "11.9" = some (119, 1) from by decide)]
    norm_num
  · rw [SeedAttendance.parse_decimal, if_neg (by decide)]
    rw [show pyReplace (pyReplace (pyStr (RawValue.str "1,234.5")) "%" "") "," "" = "1234.5"
      from by decide]
    rw [pyFloat_eval (show pyFloatParse "1234.5" = some (12345, 1) from by decide)]
    norm_num
  · rw [SeedMcas.parse_decimal, if_neg (by decide)]
    rw [show pyReplace (pyReplace (pyStr (RawValue.str "1,234.5")) "%" "") "," "" = "1234.5"
      from by decide]
    rw [pyFloat_eval (show pyFloatParse "1234.5" = some (12345, 1) from by decide)]
    norm_num

/-- Claim C3 (witness): the null conditions at the concrete missing
value. -/
theorem C3_witness :
    SeedAttendance.parse_decimal RawValue.missing = none ∧
      SeedMcas.parse_decimal RawValue.missing = none ∧
      SeedEnrollment.parse_pct RawValue.missing = none :=
  C3_decimal_coercion.1 RawValue.missing (Or.inl rfl)

/-- Claim C4: both scripts' `parse_int` agree; they return null on the
empty string, the sentinel "N", the native missing value and any value
failing integer parse, and otherwise return the parsed integer after
stripping commas ("1,234" gives 1234, "7" gives 7), with no range check
(99999 is returned as is). -/
theorem C4_parse_int_behavior :
    (∀ v : RawValue, SeedEnrollment.parse_int v = SeedMcas.parse_int v)
    ∧ (∀ v : RawValue, v = RawValue.missing ∨ v = RawValue.str "" ∨ v = RawValue.str "N" →
        SeedEnrollment.parse_int v = none ∧ SeedMcas.parse_int v = none)
    ∧ SeedEnrollment.parse_int (RawValue.str "1,234") = some 1234
    ∧ SeedEnrollment.parse_int (RawValue.str "7") = some 7
    ∧ SeedMcas.parse_int (RawValue.str "1,234") = some 1234
    ∧ SeedEnrollment.parse_int (RawValue.str "garbage") = none
    ∧ SeedEnrollment.parse_int (RawValue.str "12.5") = none
    ∧ SeedEnrollment.parse_int (RawValue.str "99999") = some 99999 := by
  refine ⟨fun v => rfl, ?_, by decide, by decide, by decide, by decide, by decide, by decide⟩
  intro v h
  rcases h with h | h | h <;> subst h <;> exact ⟨by decide, by decide⟩

/-- Claim C4 (witness): the null conditions at the concrete missing
value. -/
theorem C4_witness :
    SeedEnrollment.parse_int RawValue.missing = none ∧
      SeedMcas.parse_int RawValue.missing = none :=
  C4_parse_int_behavior.2.1 RawValue.missing (Or.inl rfl)

/-- On the fixture row, only the school-year check can fail. -/
theorem attErrors_fix (v : RawValue) :
    SeedAttendance.attendanceErrors (attRowWithYear v) = schoolYearErrors (pyIntOf v) := by
  show schoolYearErrors (pyIntOf v)
      ++ missingError (pyStrip (pyStr (RawValue.str "1"))) "Missing ATTEND_PERIOD"
      ++ missingError (pyStrip (pyStr (RawValue.str "00350339"))) "Missing ORG_CODE (school_id)"
      ++ missingError (pyStrip (pyStr (RawValue.str "All Students")))
          "Missing STU_GRP (student_group)"
      = schoolYearErrors (pyIntOf v)
  rw [show missingError (pyStrip (pyStr (RawValue.str "1"))) "Missing ATTEND_PERIOD" = []
      from by decide,
    show missingError (pyStrip (pyStr (RawValue.str "00350339")))
      "Missing ORG_CODE (school_id)" = [] from by decide,
    show missingError (pyStrip (pyStr (RawValue.str "All Students")))
      "Missing STU_GRP (student_group)" = [] from by decide]
  simp

/-- On the fixture row, only the school-year check can fail (MCAS). -/
theorem mcasErrors_fix (v : RawValue) :
    SeedMcas.mcasErrors (mcasRowWithYear v) = schoolYearErrors (pyIntOf v) := by
  show schoolYearErrors (pyIntOf v)
      ++ missingError (pyStrip (pyStr (RawValue.str "00350339"))) "Missing ORG_CODE (school_id)"
      ++ missingError (pyStrip (pyStr (RawValue.str "03"))) "Missing TEST_GRADE"
      ++ missingError (pyStrip (pyStr (RawValue.str "ELA"))) "Missing SUBJECT_CODE"
      ++ missingError (pyStrip (pyStr (RawValue.str "All Students")))
          "Missing STU_GRP (student_group)"
      = schoolYearErrors (pyIntOf v)
  rw [show missingError (pyStrip (pyStr (RawValue.str "00350339")))
      "Missing ORG_CODE (school_id)" = [] from by decide,
    show missingError (pyStrip (pyStr (RawValue.str "03"))) "Missing TEST_GRADE" = []
      from by decide,
    show missingError (pyStrip (pyStr (RawValue.str "ELA"))) "Missing SUBJECT_CODE" = []
      from by decide,
    show missingError (pyStrip (pyStr (RawValue.str "All Students")))
      "Missing STU_GRP (student_group)" = [] from by decide]
  simp

/-- An in-range year produces no year error. -/
theorem schoolYearErrors_in_range {y : Int} (h1 : 2000 ≤ y) (h2 : y ≤ 2100) :
    schoolYearErrors (some y) = [] := by
  rw [schoolYearErrors]
  rw [if_neg]
  omega

/-- An out-of-range year produces exactly the range-specific reason. -/
theorem schoolYearErrors_out_of_range {y : Int} (h : y < 2000 ∨ y > 2100) :
    schoolYearErrors (some y) =
      ["Invalid school_year " ++ toString y ++ " (must be 2000-2100)"] := by
  rw [schoolYearErrors, if_pos h]

/-- The attendance validator accepts exactly when no error accumulated. -/
theorem validate_att_isSome (row : SeedAttendance.AttendanceRow) :
    (SeedAttendance.validate_attendance_record row).isSome = true ↔
      SeedAttendance.attendanceErrors row = [] := by
  rw [SeedAttendance.validate_attendance_record]
  by_cases h : SeedAttendance.attendanceErrors row = [] <;> simp [h]

/-- The attendance validator rejects exactly when some error accumulated. -/
theorem validate_att_none (row : SeedAttendance.AttendanceRow) :
    SeedAttendance.validate_attendance_record row = none ↔
      ¬ SeedAttendance.attendanceErrors row = [] := by
  rw [SeedAttendance.validate_attendance_record]
  by_cases h : SeedAttendance.attendanceErrors row = [] <;> simp [h]

/-- The MCAS validator accepts exactly when no error accumulated. -/
theorem validate_mcas_isSome (row : SeedMcas.McasRow) :
    (SeedMcas.validate_mcas_record row).isSome = true ↔
      SeedMcas.mcasErrors row = [] := by
  rw [SeedMcas.validate_mcas_record]
  by_cases h : SeedMcas.mcasErrors row = [] <;> simp [h]

/-- Claim C5 (counterexample): the claim asserts the reason for an
unparseable year is worded distinctly from the reason for a missing year;
but both the attendance and MCAS validators parse an unparseable year to
`None` and report the very same "Missing SY (school_year)" wording as
for an absent year. -/
theorem C5_counterexample :
    SeedAttendance.attendanceErrors (attRowWithYear (RawValue.str "abcd"))
        = ["Missing SY (school_year)"]
    ∧ SeedAttendance.attendanceErrors (attRowWithYear RawValue.missing)
        = ["Missing SY (school_year)"]
    ∧ SeedMcas.mcasErrors (mcasRowWithYear (RawValue.str "abcd"))
        = SeedMcas.mcasErrors (mcasRowWithYear RawValue.missing) := by
  exact ⟨by decide, by decide, by decide⟩

/-- Claim C5 (amended): a school year is accepted exactly when it parses
as an integer in [2000, 2100] inclusive; 1999 and 2101 are rejected with
a range-specific reason worded distinctly from the missing reason; but an
unparseable year is folded into `None` and reported with the same
"Missing SY (school_year)" reason as a missing year. -/
theorem C5_school_year_validation :
    (∀ y : Int, 2000 ≤ y → y ≤ 2100 →
        (SeedAttendance.validate_attendance_record (attRowWithYear (RawValue.int y))).isSome = true
        ∧ (SeedMcas.validate_mcas_record (mcasRowWithYear (RawValue.int y))).isSome = true)
    ∧ (∀ y : Int, y < 2000 ∨ y > 2100 →
        SeedAttendance.attendanceErrors (attRowWithYear (RawValue.int y)) =
            ["Invalid school_year " ++ toString y ++ " (must be 2000-2100)"]
        ∧ SeedMcas.mcasErrors (mcasRowWithYear (RawValue.int y)) =
            ["Invalid school_year " ++ toString y ++ " (must be 2000-2100)"]
        ∧ SeedAttendance.validate_attendance_record (attRowWithYear (RawValue.int y)) = none)
    ∧ SeedAttendance.attendanceErrors (attRowWithYear (RawValue.int 1999)) =
        ["Invalid school_year 1999 (must be 2000-2100)"]
    ∧ SeedAttendance.attendanceErrors (attRowWithYear (RawValue.int 2101)) =
        ["Invalid school_year 2101 (must be 2000-2100)"]
    ∧ SeedMcas.mcasErrors (mcasRowWithYear (RawValue.int 1999)) =
        ["Invalid school_year 1999 (must be 2000-2100)"]
    ∧ ("Invalid school_year 1999 (must be 2000-2100)" ≠ "Missing SY (school_year)")
    ∧ ("Invalid school_year 2101 (must be 2000-2100)" ≠ "Missing SY (school_year)")
    ∧ SeedAttendance.attendanceErrors (attRowWithYear (RawValue.str "abcd")) =
        ["Missing SY (school_year)"]
    ∧ SeedMcas.mcasErrors (mcasRowWithYear (RawValue.str "abcd")) =
        ["Missing SY (school_year)"] := by
  refine ⟨?_, ?_, by decide, by decide, by decide, by decide, by decide, by decide, by decide⟩
  · intro y h1 h2
    constructor
    · exact (validate_att_isSome _).mpr
        (by rw [attErrors_fix]; exact schoolYearErrors_in_range h1 h2)
    · exact (validate_mcas_isSome _).mpr
        (by rw [mcasErrors_fix]; exact schoolYearErrors_in_range h1 h2)
  · intro y h
    refine ⟨?_, ?_, ?_⟩
    · rw [attErrors_fix]; exact schoolYearErrors_out_of_range h
    · rw [mcasErrors_fix]; exact schoolYearErrors_out_of_range h
    · refine (validate_att_none _).mpr ?_
      rw [attErrors_fix]
      rw [show pyIntOf (RawValue.int y) = some y from rfl, schoolYearErrors_out_of_range h]
      simp

/-- Claim C5 (witness): year 2050 is accepted, year 1999 is rejected with
the range-specific reason. -/
theorem C5_witness :
    (SeedAttendance.validate_attendance_record (attRowWithYear (RawValue.int 2050))).isSome = true
    ∧ SeedAttendance.attendanceErrors (attRowWithYear (RawValue.int 1999)) =
        ["Invalid school_year " ++ toString (1999 : Int) ++ " (must be 2000-2100)"] :=
  ⟨(C5_school_year_validation.1 2050 (by norm_num) (by norm_num)).1,
   (C5_school_year_validation.2.1 1999 (Or.inl (by norm_num))).1⟩

/-- Claim C6: organization-type normalization is case-insensitive: any
value containing "district" maps to District, any value containing
"school" (and not "district") maps to School, the value "state" (exactly,
after case folding and stripping) maps to State, and every other value
passes through unchanged — and such a passthrough value can never be a
member of VALID_ORG_TYPES, so it then fails the membership check; the
spec's three examples hold, and a row with an unrecognized type is
rejected with the membership-failure reason. -/
theorem C6_org_type_normalization :
    (∀ s : String, containsSub "district".data (pyStrip (pyLower s)).data = true →
        SeedSchools.normalize_org_type s = "District")
    ∧ (∀ s : String, containsSub "school".data (pyStrip (pyLower s)).data = true →
        containsSub "district".data (pyStrip (pyLower s)).data = false →
        SeedSchools.normalize_org_type s = "School")
    ∧ (∀ s : String, pyStrip (pyLower s) = "state" →
        SeedSchools.normalize_org_type s = "State")
    ∧ (∀ s : String, pyStrip (pyLower s) ≠ "state" →
        containsSub "district".data (pyStrip (pyLower s)).data = false →
        containsSub "school".data (pyStrip (pyLower s)).data = false →
        SeedSchools.normalize_org_type s = s ∧ s ∉ SeedSchools.VALID_ORG_TYPES)
    ∧ SeedSchools.normalize_org_type "Public School" = "School"
    ∧ SeedSchools.normalize_org_type "Public School District" = "District"
    ∧ SeedSchools.normalize_org_type "State" = "State"
    ∧ SeedSchools.validate_school_record schoolRowUnknownOrg "some.csv" = none
    ∧ SeedSchools.invalidOrgTypeMsg "Collaborative" ∈
        SeedSchools.schoolErrors schoolRowUnknownOrg := by
  refine ⟨?_, ?_, ?_, ?_, by decide, by decide, by decide, by decide, by decide⟩
  · intro s h
    simp only [SeedSchools.normalize_org_type]
    by_cases hst : pyStrip (pyLower s) = "state"
    · rw [hst] at h
      exact absurd h (by decide)
    · rw [if_neg hst, if_pos h]
  · intro s hs hd
    simp only [SeedSchools.normalize_org_type]
    by_cases hst : pyStrip (pyLower s) = "state"
    · rw [hst] at hs
      exact absurd hs (by decide)
    · rw [if_neg hst,
        if_neg (show ¬ containsSub "district".data (pyStrip (pyLower s)).data = true by
          simp [hd]),
        if_pos hs]
  · intro s h
    simp only [SeedSchools.normalize_org_type]
    rw [if_pos h]
  · intro s h1 h2 h3
    constructor
    · simp only [SeedSchools.normalize_org_type]
      rw [if_neg h1,
        if_neg (show ¬ containsSub "district".data (pyStrip (pyLower s)).data = true by
          simp [h2]),
        if_neg (show ¬ containsSub "school".data (pyStrip (pyLower s)).data = true by
          simp [h3])]
    · intro hmem
      simp only [SeedSchools.VALID_ORG_TYPES, List.mem_cons, List.not_mem_nil,
        or_false] at hmem
      rcases hmem with h | h | h <;> subst h
      · exact absurd h3 (by decide)
      · exact absurd h2 (by decide)
      · exact h1 (by decide)

/-- Claim C6 (witness): the normalization conjuncts applied at concrete
inputs. -/
theorem C6_witness :
    SeedSchools.normalize_org_type "BPS DISTRICT office" = "District"
    ∧ SeedSchools.normalize_org_type "Collaborative" = "Collaborative" :=
  ⟨C6_org_type_normalization.1 "BPS DISTRICT office" (by decide),
   (C6_org_type_normalization.2.2.2.1 "Collaborative" (by decide) (by decide) (by decide)).1⟩

/-- Claim C7: `collect_all_schools` folds the per-source results in the
pipeline's source order into a dict keyed by school id with
last-write-wins overwrites counted: the final lookup at any key is the
last record for that key in the concatenated source stream; in
particular, when two sources both carry a record for the same school id,
the later source's record wins and the overwrite counter registers the
duplicate. -/
theorem C7_dedup_last_wins :
    (∀ (sources : List (List SeedSchools.SchoolRecord)) (k : String),
        dictGet (SeedSchools.collect_all_schools sources).1 k =
          (sources.flatten.filter (fun r => r.school_id == k)).getLast?)
    ∧ (∀ (s1 s2 : List SeedSchools.SchoolRecord) (r2 : SeedSchools.SchoolRecord) (k : String),
        (s2.filter (fun r => r.school_id == k)).getLast? = some r2 →
        dictGet (SeedSchools.collect_all_schools [s1, s2]).1 k = some r2)
    ∧ (∀ r1 r2 : SeedSchools.SchoolRecord, r1.school_id = r2.school_id →
        dictGet (SeedSchools.collect_all_schools [[r1], [r2]]).1 r2.school_id = some r2
        ∧ (SeedSchools.collect_all_schools [[r1], [r2]]).2 = 1) := by
  refine ⟨collect_get, ?_, ?_⟩
  · intro s1 s2 r2 k h
    rw [collect_get]
    rw [show ([s1, s2] : List (List SeedSchools.SchoolRecord)).flatten = s1 ++ s2 by simp]
    rw [List.filter_append, getLast?_append_orO, h]
    rfl
  · intro r1 r2 h
    constructor
    · rw [collect_get]
      rw [show ([[r1], [r2]] : List (List SeedSchools.SchoolRecord)).flatten = [r1, r2]
        by simp]
      have h1 : (r1.school_id == r2.school_id) = true := by simp [h]
      simp [List.filter, h1]
    · simp [SeedSchools.collect_all_schools, SeedSchools.addSchool, dictSet,
        dictContains, dictGet, h]

/-- Claim C7 (witness): two singleton sources with the same school id and
differing names; the later record wins and one overwrite is counted. -/
theorem C7_witness :
    dictGet (SeedSchools.collect_all_schools [[schRec1], [schRec2]]).1 "1234" = some schRec2
    ∧ (SeedSchools.collect_all_schools [[schRec1], [schRec2]]).2 = 1 :=
  ⟨(C7_dedup_last_wins.2.2 schRec1 schRec2 rfl).1,
   (C7_dedup_last_wins.2.2 schRec1 schRec2 rfl).2⟩

/-- Claim C8: with the dry-run flag set the loader issues zero sink calls
(the call trace is empty, so sink state is untouched), previews only the
first five records, and returns success unconditionally, for any record
list, sink and batch size (shown for the two cited loaders). -/
theorem C8_dry_run :
    (∀ (sink : SinkOracle SeedAttendance.AttendanceRecord)
        (records : List SeedAttendance.AttendanceRecord) (bs : Nat),
        SeedAttendance.insert_attendance_records sink records bs true =
          { calls := [], total_inserted := 0, total_errors := 0, success := true,
            preview := records.take 5 })
    ∧ (∀ (sink : SinkOracle SeedSchools.SchoolRecord)
        (schools : List (String × SeedSchools.SchoolRecord)) (bs : Nat),
        SeedSchools.insert_schools sink schools bs true =
          { calls := [], total_inserted := 0, total_errors := 0, success := true,
            preview := (schools.map Prod.snd).take 5 }) :=
  ⟨fun _ _ _ => rfl, fun _ _ _ => rfl⟩

/-- Claim C9: the driver fails with exit 1 on an empty extraction without
requesting a sink client or attempting a load; fails with exit 1 before
any load when the client cannot be configured; and otherwise exits 0
exactly when the batch loader reports success (attendance and enrollment
drivers). -/
theorem C9_driver :
    (∀ (client_ok : Bool) (sink : SinkOracle SeedAttendance.AttendanceRecord) (dry : Bool),
        SeedAttendance.main_model [] client_ok sink dry =
          { exit_code := 1, client_requested := false, load_attempted := false,
            sink_calls := [] })
    ∧ (∀ (records : List SeedAttendance.AttendanceRecord)
        (sink : SinkOracle SeedAttendance.AttendanceRecord) (dry : Bool), records ≠ [] →
        SeedAttendance.main_model records false sink dry =
          { exit_code := 1, client_requested := true, load_attempted := false,
            sink_calls := [] })
    ∧ (∀ (records : List SeedAttendance.AttendanceRecord)
        (sink : SinkOracle SeedAttendance.AttendanceRecord) (dry : Bool), records ≠ [] →
        ((SeedAttendance.main_model records true sink dry).exit_code = 0 ↔
          (SeedAttendance.insert_attendance_records sink records 100 dry).success = true))
    ∧ (∀ (client_ok : Bool) (sink : SinkOracle SeedEnrollment.EnrollmentRecord) (dry : Bool),
        SeedEnrollment.main_model [] client_ok sink dry =
          { exit_code := 1, client_requested := false, load_attempted := false,
            sink_calls := [] })
    ∧ (∀ (records : List SeedEnrollment.EnrollmentRecord)
        (sink : SinkOracle SeedEnrollment.EnrollmentRecord) (dry : Bool), records ≠ [] →
        SeedEnrollment.main_model records false sink dry =
          { exit_code := 1, client_requested := true, load_attempted := false,
            sink_calls := [] })
    ∧ (∀ (records : List SeedEnrollment.EnrollmentRecord)
        (sink : SinkOracle SeedEnrollment.EnrollmentRecord) (dry : Bool), records ≠ [] →
        ((SeedEnrollment.main_model records true sink dry).exit_code = 0 ↔
          (SeedEnrollment.insert_enrollment_records sink records 100 dry).success = true)) := by
  refine ⟨fun _ _ _ => rfl, ?_, ?_, fun _ _ _ => rfl, ?_, ?_⟩
  · intro records sink dry h
    have he : records.isEmpty = false := by
      cases records with
      | nil => exact absurd rfl h
      | cons a t => rfl
    simp [SeedAttendance.main_model, he]
  · intro records sink dry h
    have he : records.isEmpty = false := by
      cases records with
      | nil => exact absurd rfl h
      | cons a t => rfl
    cases hs : (SeedAttendance.insert_attendance_records sink records 100 dry).success with
    | false => simp [SeedAttendance.main_model, he, hs]
    | true => simp [SeedAttendance.main_model, he, hs]
  · intro records sink dry h
    have he : records.isEmpty = false := by
      cases records with
      | nil => exact absurd rfl h
      | cons a t => rfl
    simp [SeedEnrollment.main_model, he]
  · intro records sink dry h
    have he : records.isEmpty = false := by
      cases records with
      | nil => exact absurd rfl h
      | cons a t => rfl
    cases hs : (SeedEnrollment.insert_enrollment_records sink records 100 dry).success with
    | false => simp [SeedEnrollment.main_model, he, hs]
    | true => simp [SeedEnrollment.main_model, he, hs]

/-- Claim C9 (witness): a nonempty extraction with a misconfigured client
fails before any load, and a nonempty dry run exits 0. -/
theorem C9_witness :
    SeedAttendance.main_model [attRecA] false sinkSingletonOnly false =
      { exit_code := 1, client_requested := true, load_attempted := false, sink_calls := [] }
    ∧ (SeedEnrollment.main_model [enrRec0] true (fun _ => true) true).exit_code = 0 :=
  ⟨C9_driver.2.1 [attRecA] sinkSingletonOnly false (by simp),
   (C9_driver.2.2.2.2.2 [enrRec0] (fun _ => true) true (by simp)).mpr rfl⟩

/-- An empty required-field check means the value is non-blank. -/
theorem missingError_nil {v msg : String} (h : missingError v msg = []) :
    v ≠ "" ∧ v ≠ "nan" := by
  by_cases hc : v = "" ∨ v = "nan"
  · rw [missingError, if_pos hc] at h
    simp at h
  · push_neg at hc
    exact hc

/-- An empty school-year check means a parsed in-range year. -/
theorem schoolYearErrors_nil {o : Option Int} (h : schoolYearErrors o = []) :
    ∃ y, o = some y ∧ 2000 ≤ y ∧ y ≤ 2100 := by
  cases o with
  | none => simp [schoolYearErrors] at h
  | some y =>
    refine ⟨y, rfl, ?_⟩
    rw [schoolYearErrors] at h
    by_cases hc : y < 2000 ∨ y > 2100
    · rw [if_pos hc] at h
      simp at h
    · push_neg at hc
      omega

/-- An empty organization-type check means a valid membership. -/
theorem orgTypeErrors_nil {ot : String} (h : SeedSchools.orgTypeErrors ot = []) :
    ot ∈ SeedSchools.VALID_ORG_TYPES := by
  rw [SeedSchools.orgTypeErrors] at h
  by_cases h1 : ot = "" ∨ ot = "nan"
  · rw [if_pos h1] at h
    simp at h
  · rw [if_neg h1] at h
    by_cases h2 : ot ∈ SeedSchools.VALID_ORG_TYPES
    · exact h2
    · rw [if_pos h2] at h
      simp at h

/-- Unpacking a successful attendance validation. -/
theorem validate_att_some {row : SeedAttendance.AttendanceRow}
    {rec : SeedAttendance.AttendanceRecord}
    (h : SeedAttendance.validate_attendance_record row = some rec) :
    SeedAttendance.attendanceErrors row = [] ∧
      rec.attendance_period = pyStrip (pyStr row.ATTEND_PERIOD) ∧
      rec.school_id = pyStrip (pyStr row.ORG_CODE) ∧
      rec.student_group = pyStrip (pyStr row.STU_GRP) ∧
      rec.school_year = pyIntOf row.SY := by
  rw [SeedAttendance.validate_attendance_record] at h
  by_cases hc : SeedAttendance.attendanceErrors row = []
  · rw [if_pos hc] at h
    have := Option.some.inj h
    rw [← this]
    exact ⟨hc, rfl, rfl, rfl, rfl⟩
  · rw [if_neg hc] at h
    cases h

/-- Unpacking a successful MCAS validation. -/
theorem validate_mcas_some {row : SeedMcas.McasRow} {rec : SeedMcas.McasRecord}
    (h : SeedMcas.validate_mcas_record row = some rec) :
    SeedMcas.mcasErrors row = [] ∧
      rec.school_id = pyStrip (pyStr row.ORG_CODE) ∧
      rec.test_grade = pyStrip (pyStr row.TEST_GRADE) ∧
      rec.subject_code = pyStrip (pyStr row.SUBJECT_CODE) ∧
      rec.student_group = pyStrip (pyStr row.STU_GRP) ∧
      rec.school_year = pyIntOf row.SY := by
  rw [SeedMcas.validate_mcas_record] at h
  by_cases hc : SeedMcas.mcasErrors row = []
  · rw [if_pos hc] at h
    have := Option.some.inj h
    rw [← this]
    exact ⟨hc, rfl, rfl, rfl, rfl, rfl⟩
  · rw [if_neg hc] at h
    cases h

/-- Unpacking a successful school-directory validation. -/
theorem validate_school_some {row : SeedSchools.SchoolRow} {sf : String}
    {rec : SeedSchools.SchoolRecord}
    (h : SeedSchools.validate_school_record row sf = some rec) :
    SeedSchools.schoolErrors row = [] ∧
      rec.school_id = pyStrip (pyStr row.ORG_CODE) ∧
      rec.school_name = pyStrip (pyStr row.ORG_NAME) ∧
      rec.district_code = pyStrip (pyStr row.DIST_CODE) ∧
      rec.district_name = pyStrip (pyStr row.DIST_NAME) ∧
      rec.org_type = SeedSchools.schoolOrgType row := by
  rw [SeedSchools.validate_school_record] at h
  by_cases hc : SeedSchools.schoolErrors row = []
  · rw [if_pos hc] at h
    have := Option.some.inj h
    rw [← this]
    exact ⟨hc, rfl, rfl, rfl, rfl, rfl⟩
  · rw [if_neg hc] at h
    cases h

/-- A stripped, non-blank field satisfies the key-completeness
property. -/
theorem goodKey_of_strip {raw v msg : String} (hv : v = pyStrip raw)
    (h : missingError (pyStrip raw) msg = []) : goodKey v := by
  obtain ⟨h1, h2⟩ := missingError_nil h
  subst hv
  exact ⟨h1, h2, pyStrip_idem raw⟩

/-- Claim C10: every record a domain validator returns has all of its
natural-key identifier fields equal to non-empty trimmed strings distinct
from the literal "nan", and, where the domain carries a school year, a
year in [2000, 2100]; for the directory domain the organization type is
additionally a member of VALID_ORG_TYPES. -/
theorem C10_validator_invariant :
    (∀ (row : SeedAttendance.AttendanceRow) (rec : SeedAttendance.AttendanceRecord),
        SeedAttendance.validate_attendance_record row = some rec →
        goodKey rec.attendance_period ∧ goodKey rec.school_id ∧
          goodKey rec.student_group ∧
          ∃ y, rec.school_year = some y ∧ 2000 ≤ y ∧ y ≤ 2100)
    ∧ (∀ (row : SeedMcas.McasRow) (rec : SeedMcas.McasRecord),
        SeedMcas.validate_mcas_record row = some rec →
        goodKey rec.school_id ∧ goodKey rec.test_grade ∧ goodKey rec.subject_code ∧
          goodKey rec.student_group ∧
          ∃ y, rec.school_year = some y ∧ 2000 ≤ y ∧ y ≤ 2100)
    ∧ (∀ (row : SeedSchools.SchoolRow) (sf : String) (rec : SeedSchools.SchoolRecord),
        SeedSchools.validate_school_record row sf = some rec →
        goodKey rec.school_id ∧ goodKey rec.school_name ∧ goodKey rec.district_code ∧
          goodKey rec.district_name ∧ rec.org_type ∈ SeedSchools.VALID_ORG_TYPES ∧
          goodKey rec.org_type) := by
  refine ⟨?_, ?_, ?_⟩
  · intro row rec h
    obtain ⟨herr, hp, hi, hg, hy⟩ := validate_att_some h
    rw [SeedAttendance.attendanceErrors] at herr
    simp only [List.append_eq_nil] at herr
    obtain ⟨⟨⟨hyear, h1⟩, h2⟩, h3⟩ := herr
    refine ⟨goodKey_of_strip hp h1, goodKey_of_strip hi h2, goodKey_of_strip hg h3, ?_⟩
    rw [hy]
    exact schoolYearErrors_nil hyear
  · intro row rec h
    obtain ⟨herr, hi, ht, hs, hg, hy⟩ := validate_mcas_some h
    rw [SeedMcas.mcasErrors] at herr
    simp only [List.append_eq_nil] at herr
    obtain ⟨⟨⟨⟨hyear, h1⟩, h2⟩, h3⟩, h4⟩ := herr
    refine ⟨goodKey_of_strip hi h1, goodKey_of_strip ht h2, goodKey_of_strip hs h3,
      goodKey_of_strip hg h4, ?_⟩
    rw [hy]
    exact schoolYearErrors_nil hyear
  · intro row sf rec h
    obtain ⟨herr, hi, hn, hdc, hdn, hot⟩ := validate_school_some h
    rw [SeedSchools.schoolErrors] at herr
    simp only [List.append_eq_nil] at herr
    obtain ⟨⟨⟨⟨h1, h2⟩, h3⟩, h4⟩, horg⟩ := herr
    have hmem : rec.org_type ∈ SeedSchools.VALID_ORG_TYPES := by
      rw [hot]
      exact orgTypeErrors_nil horg
    refine ⟨goodKey_of_strip hi h1, goodKey_of_strip hn h2, goodKey_of_strip hdc h3,
      goodKey_of_strip hdn h4, hmem, ?_⟩
    have : rec.org_type = "School" ∨ rec.org_type = "District" ∨ rec.org_type = "State" := by
      simpa [SeedSchools.VALID_ORG_TYPES] using hmem
    rcases this with h | h | h <;> rw [h] <;> decide

/-- Claim C10 (witness): the invariant at a concrete accepted row. -/
theorem C10_witness :
    goodKey attRec2015.school_id ∧
      (∃ y, attRec2015.school_year = some y ∧ 2000 ≤ y ∧ y ≤ 2100) :=
  ⟨(C10_validator_invariant.1 (attRowWithYear (RawValue.int 2015)) attRec2015
      (by decide)).2.1,
   (C10_validator_invariant.1 (attRowWithYear (RawValue.int 2015)) attRec2015
      (by decide)).2.2.2⟩

/-- Claim C1 (code evaluation at the failing input): two records in a
single batch, whose batch call fails while both individual fallback
retries succeed.  The loader counted the whole batch into the error tally
before retrying and never reverts it, so the run ends with
total_errors = 2 and total_inserted = 2 over only 2 records and reports
failure — although every record was inserted by the retries (the last
conjunct checks that every fallback call succeeded against the sink).
Under the claim (and the spec), such a run reports overall success. -/
theorem C1_code_eval :
    (SeedAttendance.insert_attendance_records sinkSingletonOnly [attRecA, attRecB] 2
        false).success = false
    ∧ (SeedAttendance.insert_attendance_records sinkSingletonOnly [attRecA, attRecB] 2
        false).total_errors = 2
    ∧ (SeedAttendance.insert_attendance_records sinkSingletonOnly [attRecA, attRecB] 2
        false).total_inserted = 2
    ∧ ((SeedAttendance.insert_attendance_records sinkSingletonOnly [attRecA, attRecB] 2
        false).calls.filter (fun c => c.on_conflict.isNone)).all sinkSingletonOnly = true
    ∧ ((SeedAttendance.insert_attendance_records sinkSingletonOnly [attRecA, attRecB] 2
        false).calls.filter (fun c => c.on_conflict.isNone)).length = 2 :=
  ⟨by decide, by decide, by decide, by decide, by decide⟩

/-- Claim C2 (counterexample): in the run of `C1_code_eval`, the second
sink call — the per-record fallback for the first record after the batch
failure — carries no conflict target at all (`on_conflict = none`), not
the domain's natural-key tuple, refuting the claim that every upsert call
the loader issues uses the natural-key conflict target. -/
theorem C2_counterexample :
    ((SeedAttendance.insert_attendance_records sinkSingletonOnly [attRecA, attRecB] 2
        false).calls)[1]? =
      some { table := "attendance", rows := [attRecA], on_conflict := none }
    ∧ (none : Option String) ≠
        some "school_id,school_year,attendance_period,student_group" :=
  ⟨by decide, by decide⟩

/-- Elements of a batch come from the record list. -/
theorem mem_chunksAux_sub {α : Type} (bs : Nat) :
    ∀ (fuel : Nat) (l b : List α), b ∈ chunksAux bs fuel l → ∀ x ∈ b, x ∈ l := by
  intro fuel
  induction fuel with
  | zero => intro l b hb; simp [chunksAux] at hb
  | succ n ih =>
    intro l b hb x hx
    cases l with
    | nil => simp [chunksAux] at hb
    | cons a t =>
      rw [show chunksAux bs (n + 1) (a :: t) =
          (a :: t).take bs :: chunksAux bs n ((a :: t).drop bs) from rfl] at hb
      rcases List.mem_cons.mp hb with h | h
      · subst h
        exact List.take_subset bs (a :: t) hx
      · exact List.drop_subset bs (a :: t) (ih (List.drop bs (a :: t)) b h x hx)

/-- Elements of a batch come from the record list. -/
theorem mem_chunks_sub {α : Type} {bs : Nat} {l b : List α} (hb : b ∈ chunks bs l) :
    ∀ x ∈ b, x ∈ l :=
  mem_chunksAux_sub bs l.length l b hb

/-- The live-mode call trace is the loop's call trace. -/
theorem insertRecords_live_calls {α : Type} (table key : String) (sink : SinkOracle α)
    (records : List α) (bs : Nat) :
    (insertRecords table key sink records bs false).calls =
      (insertLoop table key sink (chunks bs records)).1 := rfl

/-- Claim C2 (amended): every upsert call the loader issues against its
table is either a per-batch call carrying the domain's natural-key tuple
as the conflict target, or a per-record fallback call (after a batch
failure) carrying exactly one record of the input and no conflict target
at all; every batch does get a call with the natural-key conflict target.
Instantiated for the cited attendance and enrollment loaders. -/
theorem C2_conflict_targets :
    (∀ (α : Type) (table key : String) (sink : SinkOracle α) (records : List α) (bs : Nat)
        (c : UpsertCall α), c ∈ (insertRecords table key sink records bs false).calls →
        c.table = table ∧
          (c.on_conflict = some key ∨
            (c.on_conflict = none ∧ ∃ r ∈ records, c.rows = [r])))
    ∧ (∀ (α : Type) (table key : String) (sink : SinkOracle α) (records : List α) (bs : Nat),
        ∀ b ∈ chunks bs records,
        ({ table := table, rows := b, on_conflict := some key } : UpsertCall α) ∈
          (insertRecords table key sink records bs false).calls)
    ∧ (∀ (sink : SinkOracle SeedAttendance.AttendanceRecord)
        (records : List SeedAttendance.AttendanceRecord) (bs : Nat)
        (c : UpsertCall SeedAttendance.AttendanceRecord),
        c ∈ (SeedAttendance.insert_attendance_records sink records bs false).calls →
        c.on_conflict = some "school_id,school_year,attendance_period,student_group" ∨
          c.on_conflict = none)
    ∧ (∀ (sink : SinkOracle SeedEnrollment.EnrollmentRecord)
        (records : List SeedEnrollment.EnrollmentRecord) (bs : Nat)
        (c : UpsertCall SeedEnrollment.EnrollmentRecord),
        c ∈ (SeedEnrollment.insert_enrollment_records sink records bs false).calls →
        c.on_conflict = some "school_id,school_year" ∨ c.on_conflict = none) := by
  have main : ∀ (α : Type) (table key : String) (sink : SinkOracle α) (records : List α)
      (bs : Nat) (c : UpsertCall α),
      c ∈ (insertRecords table key sink records bs false).calls →
      c.table = table ∧
        (c.on_conflict = some key ∨
          (c.on_conflict = none ∧ ∃ r ∈ records, c.rows = [r])) := by
    intro α table key sink records bs c hc
    rw [insertRecords_live_calls, insertLoop_calls] at hc
    obtain ⟨calls, hcalls, hmem⟩ := List.mem_flatten.mp hc
    obtain ⟨b, hb, hpb⟩ := List.mem_map.mp hcalls
    subst hpb
    rcases mem_processBatch_calls hmem with h | ⟨r, hr, h⟩
    · subst h
      exact ⟨rfl, Or.inl rfl⟩
    · subst h
      exact ⟨rfl, Or.inr ⟨rfl, r, mem_chunks_sub hb r hr, rfl⟩⟩
  refine ⟨main, ?_, ?_, ?_⟩
  · intro α table key sink records bs b hb
    rw [insertRecords_live_calls, insertLoop_calls]
    exact List.mem_flatten.mpr
      ⟨(processBatch table key sink b).1,
        List.mem_map_of_mem (fun b => (processBatch table key sink b).1) hb,
        batchCall_mem_processBatch table key sink b⟩
  · intro sink records bs c hc
    rcases (main SeedAttendance.AttendanceRecord "attendance"
        "school_id,school_year,attendance_period,student_group" sink records bs c hc).2 with
      h | ⟨h, _⟩
    · exact Or.inl h
    · exact Or.inr h
  · intro sink records bs c hc
    rcases (main SeedEnrollment.EnrollmentRecord "enrollment" "school_id,school_year"
        sink records bs c hc).2 with h | ⟨h, _⟩
    · exact Or.inl h
    · exact Or.inr h

/-- Claim C2 (witness): the batch call of the concrete failing run does
carry the natural-key conflict target. -/
theorem C2_witness :
    ({ table := "attendance", rows := [attRecA, attRecB],
        on_conflict := some "school_id,school_year,attendance_period,student_group" } :
      UpsertCall SeedAttendance.AttendanceRecord) ∈
      (SeedAttendance.insert_attendance_records sinkSingletonOnly [attRecA, attRecB] 2
        false).calls :=
  C2_conflict_targets.2.1 SeedAttendance.AttendanceRecord "attendance"
    "school_id,school_year,attendance_period,student_group" sinkSingletonOnly
    [attRecA, attRecB] 2 [attRecA, attRecB] (by decide)
